import Mathlib

/-!
Verification of `resolve_sandbox_path` from
`crates/openfang-runtime/src/workspace_sandbox.rs`.

The Rust function confines a user-supplied path to a workspace directory:
it rejects `..` components, joins relative paths onto the workspace root,
canonicalizes via the OS (following symlinks), and checks that the canonical
candidate starts with (component-wise) the canonical workspace root.

Shallow embedding choices:
- A path is an absoluteness flag plus a list of components, mirroring
  `std::path::Path::components()` (which normalizes away `.` segments except
  a leading one, and collapses repeated separators). `parsePath` performs
  that normalization on strings, for a Unix-style filesystem (no Windows
  prefixes).
- The filesystem is a finite association list from absolute resolved paths
  (lists of plain component names) to entries: directory, file, or symlink
  (with a stored target path, absolute or relative).
- `canonicalize` models POSIX `realpath` (what `std::fs::canonicalize`
  delegates to): it walks components from the root, requires each visited
  component to exist, splices in symlink targets (fuel-bounded to handle
  symlink cycles, which realpath reports as ELOOP = failure), resolves `.`
  and `..` against the already-resolved prefix, and requires the final
  component to exist. All canonicalization inputs are interpreted as
  absolute paths (the spec requires the workspace root to be absolute).
- `Path::exists()` follows symlinks via `stat`, exactly the walk realpath
  performs, so it is modelled as `canonicalize` succeeding.
- Error messages mirror the Rust strings, with the OS `io::Error` detail
  and the quote characters around interpolated text elided.
-/

namespace WorkspaceSandbox

/-- A single path component, as produced by Rust's `Path::components()`
(ignoring `RootDir`, which we track as an absoluteness flag). -/
inductive Comp where
  | normal (s : String)
  | curDir
  | parentDir
deriving DecidableEq, Repr

/-- A parsed path: absoluteness flag plus normalized component list. -/
structure RPath where
  absolute : Bool
  comps : List Comp
deriving DecidableEq, Repr

/-- Rust `Path::join`: an absolute right operand replaces the left. -/
def RPath.join (a b : RPath) : RPath :=
  if b.absolute then b else ⟨a.absolute, a.comps ++ b.comps⟩

/-- Rust `Path::parent`: drop the final component; `None` for the root
directory and for the empty relative path. -/
def RPath.parent (p : RPath) : Option RPath :=
  if p.comps.isEmpty then none else some ⟨p.absolute, p.comps.dropLast⟩

/-- Rust `Path::file_name`: the final component when it is a normal name. -/
def RPath.fileName (p : RPath) : Option String :=
  match p.comps.getLast? with
  | some (Comp.normal s) => some s
  | _ => none

/-- Map one raw segment to a component. -/
def segToComp (s : String) : Comp :=
  if s = ".." then Comp.parentDir
  else if s = "." then Comp.curDir
  else Comp.normal s

/-- Split a character list into the segments between `/` separators. -/
def splitSegsGo (cur : List Char) : List Char → List String
  | [] => [String.mk cur.reverse]
  | c :: rest =>
    if c = '/' then String.mk cur.reverse :: splitSegsGo [] rest
    else splitSegsGo (c :: cur) rest

/-- Split a path string on the `/` separator. -/
def splitSegs (s : String) : List String :=
  splitSegsGo [] s.data

/-- Whether a path string is absolute on Unix: it begins with `/`. -/
def isAbsStr (s : String) : Bool :=
  match s.data with
  | c :: _ => c = '/'
  | [] => false

/-- Parse a path string the way `Path::components()` iterates it on Unix:
split on the separator, drop empty segments, drop `.` segments except a
leading one on a relative path. -/
def parsePath (s : String) : RPath :=
  let abs := isAbsStr s
  let segs := (splitSegs s).filter (fun t => ¬ t = "")
  let body := ((segs.filter (fun t => ¬ t = ".")).map segToComp)
  if ¬ abs = true ∧ segs.headD "" = "." then ⟨abs, Comp.curDir :: body⟩
  else ⟨abs, body⟩

/-- A filesystem entry: directory, regular file, or symbolic link with its
stored target path. -/
inductive FsEntry where
  | dir
  | file
  | symlink (target : RPath)
deriving DecidableEq, Repr

/-- A filesystem: finite map from absolute resolved paths to entries. -/
abbrev FS := List (List String × FsEntry)

/-- Look up the entry at an absolute resolved path. -/
def FS.lookup (fs : FS) (p : List String) : Option FsEntry :=
  (List.find? (fun e => e.1 = p) fs).map Prod.snd

/-- One realpath walk: `acc` is the already-resolved existing prefix, `rest`
the components still to process. Symlink targets are spliced in; a regular
file may only appear as the final component; fuel bounds symlink chains
(exhaustion models ELOOP failure). -/
def resolveFrom (fs : FS) : Nat → List String → List Comp → Option (List String)
  | 0, _, _ => none
  | _ + 1, acc, [] => some acc
  | fuel + 1, acc, Comp.curDir :: rest => resolveFrom fs fuel acc rest
  | fuel + 1, acc, Comp.parentDir :: rest => resolveFrom fs fuel acc.dropLast rest
  | fuel + 1, acc, Comp.normal s :: rest =>
    match fs.lookup (acc ++ [s]) with
    | none => none
    | some FsEntry.dir => resolveFrom fs fuel (acc ++ [s]) rest
    | some FsEntry.file => if rest = [] then some (acc ++ [s]) else none
    | some (FsEntry.symlink t) =>
      resolveFrom fs fuel (if t.absolute then [] else acc) (t.comps ++ rest)

/-- Fuel bound: generous upper estimate of the components a loop-free
realpath walk can visit. -/
def canonFuel (fs : FS) (p : RPath) : Nat :=
  (p.comps.length + 2) *
    (fs.foldr (fun e a => a + (match e.2 with
      | FsEntry.symlink t => t.comps.length + 2
      | _ => 1)) 2)

/-- Model of `std::fs::canonicalize` / POSIX realpath, interpreting the
input as absolute. -/
def canonicalize (fs : FS) (p : RPath) : Option (List String) :=
  resolveFrom fs (canonFuel fs p) [] p.comps

/-- Model of `Path::exists()`: stat follows the full symlink chain, the
same walk realpath performs. -/
def pathExists (fs : FS) (p : RPath) : Bool :=
  (canonicalize fs p).isSome

/-- The rejection kinds of `resolve_sandbox_path`, one per `Err` site. -/
inductive SandboxError where
  | traversalDenied
  | rootResolutionFailed
  | pathResolutionFailed
  | invalidNoParent
  | invalidNoFilename
  | parentResolutionFailed
  | accessDenied (userPath : String)
deriving DecidableEq, Repr

/-- The Rust error message for each rejection (OS error detail and quote
characters elided). -/
def SandboxError.message : SandboxError → String
  | SandboxError.traversalDenied =>
      "Path traversal denied: .. components are forbidden"
  | SandboxError.rootResolutionFailed => "Failed to resolve workspace root"
  | SandboxError.pathResolutionFailed => "Failed to resolve path"
  | SandboxError.invalidNoParent => "Invalid path: no parent directory"
  | SandboxError.invalidNoFilename => "Invalid path: no filename"
  | SandboxError.parentResolutionFailed => "Failed to resolve parent directory"
  | SandboxError.accessDenied up =>
      "Access denied: path " ++ up ++ " resolves outside workspace. " ++
      "If you have an MCP filesystem server configured, use the " ++
      "mcp_filesystem_* tools (e.g. mcp_filesystem_read_file, " ++
      "mcp_filesystem_list_directory) to access files outside the workspace."

/-- The `..`-component scan of lines 19-23. -/
def hasParentDir (p : RPath) : Bool :=
  p.comps.any fun c => decide (c = Comp.parentDir)

/-- Lines 38-54: canonicalize the candidate if it exists, else canonicalize
its parent and re-append the literal filename. -/
def canonicalizeCandidate (fs : FS) (candidate : RPath) :
    Except SandboxError (List String) :=
  if pathExists fs candidate then
    match canonicalize fs candidate with
    | none => Except.error SandboxError.pathResolutionFailed
    | some cc => Except.ok cc
  else
    match candidate.parent with
    | none => Except.error SandboxError.invalidNoParent
    | some par =>
      match candidate.fileName with
      | none => Except.error SandboxError.invalidNoFilename
      | some fname =>
        match canonicalize fs par with
        | none => Except.error SandboxError.parentResolutionFailed
        | some cp => Except.ok (cp ++ [fname])

/-- Lines 26-30: the candidate is the user path itself when absolute,
otherwise the workspace root joined with it. -/
def candidatePath (userPath : String) (workspaceRoot : RPath) : RPath :=
  if (parsePath userPath).absolute then parsePath userPath
  else workspaceRoot.join (parsePath userPath)

/-- The embedding of `resolve_sandbox_path` (lines 15-69): reject `..`
components, build the candidate, canonicalize the workspace root, then the
candidate (or its parent for new files), and require the canonical
candidate to start with the canonical root, component-wise. -/
def resolve_sandbox_path (fs : FS) (userPath : String) (workspaceRoot : RPath) :
    Except SandboxError (List String) :=
  if hasParentDir (parsePath userPath) then
    Except.error SandboxError.traversalDenied
  else
    match canonicalize fs workspaceRoot with
    | none => Except.error SandboxError.rootResolutionFailed
    | some canonRoot =>
      match canonicalizeCandidate fs (candidatePath userPath workspaceRoot) with
      | Except.error e => Except.error e
      | Except.ok canonCandidate =>
        if canonRoot.isPrefixOf canonCandidate then
          Except.ok canonCandidate
        else
          Except.error (SandboxError.accessDenied userPath)


/-! Helper lemmas about component-prefix containment and parsing. -/

theorem isPrefixOf_self (l : List String) : l.isPrefixOf l = true := by
  simp [List.isPrefixOf_iff_prefix]

theorem isPrefixOf_append_right (a b c : List String)
    (h : a.isPrefixOf b = true) : a.isPrefixOf (b ++ c) = true := by
  rw [List.isPrefixOf_iff_prefix] at h ⊢
  exact h.trans (List.prefix_append b c)

theorem hasParentDir_mapNormal (b : Bool) (q : List String) :
    hasParentDir ⟨b, q.map Comp.normal⟩ = false := by
  simp [hasParentDir]

/-- Branch lemma: when the candidate exists (canonicalizes), the result is
the containment check applied to the canonical candidate. -/
theorem resolve_exists_case (fs : FS) (up : String) (root : RPath)
    (cr cc : List String)
    (hnp : hasParentDir (parsePath up) = false)
    (hroot : canonicalize fs root = some cr)
    (hcand : canonicalize fs (candidatePath up root) = some cc) :
    resolve_sandbox_path fs up root =
      (if cr.isPrefixOf cc then Except.ok cc
       else Except.error (SandboxError.accessDenied up)) := by
  unfold resolve_sandbox_path
  simp only [hnp, Bool.false_eq_true, if_false, hroot, canonicalizeCandidate,
    pathExists, hcand, Option.isSome_some, if_true]

/-- Branch lemma: when the candidate does not exist but parent, filename and
parent canonicalization succeed, the result is the containment check applied
to the canonical parent joined with the filename. -/
theorem resolve_newfile_case (fs : FS) (up : String) (root par : RPath)
    (fname : String) (cr cp : List String)
    (hnp : hasParentDir (parsePath up) = false)
    (hroot : canonicalize fs root = some cr)
    (hne : pathExists fs (candidatePath up root) = false)
    (hpar : (candidatePath up root).parent = some par)
    (hfn : (candidatePath up root).fileName = some fname)
    (hcp : canonicalize fs par = some cp) :
    resolve_sandbox_path fs up root =
      (if cr.isPrefixOf (cp ++ [fname]) then Except.ok (cp ++ [fname])
       else Except.error (SandboxError.accessDenied up)) := by
  unfold resolve_sandbox_path
  simp only [hnp, Bool.false_eq_true, if_false, hroot, canonicalizeCandidate,
    hne, hpar, hfn, hcp]

/-- C1: whenever resolve_sandbox_path returns Ok p, the canonical workspace
root's component sequence is a prefix of (or equal to) p's component
sequence: a successful result lies within the workspace. -/
theorem resolve_ok_inside_workspace (fs : FS) (up : String) (root : RPath)
    (p : List String) (h : resolve_sandbox_path fs up root = Except.ok p) :
    ∃ canonRoot, canonicalize fs root = some canonRoot ∧
      canonRoot.isPrefixOf p = true := by
  unfold resolve_sandbox_path at h
  split at h
  · exact absurd h (by simp)
  · split at h
    · exact absurd h (by simp)
    · rename_i canonRoot hroot
      split at h
      · exact absurd h (by simp)
      · split at h
        · rename_i hin
          cases h
          exact ⟨canonRoot, hroot, hin⟩
        · exact absurd h (by simp)

/-- Witness for C1: a concrete successful resolution, inside the workspace. -/
theorem resolve_ok_inside_workspace_witness :
    ∃ canonRoot,
      canonicalize [(["ws"], FsEntry.dir), (["ws", "a"], FsEntry.file)]
        ⟨true, [Comp.normal "ws"]⟩ = some canonRoot ∧
      canonRoot.isPrefixOf ["ws", "a"] = true :=
  resolve_ok_inside_workspace
    [(["ws"], FsEntry.dir), (["ws", "a"], FsEntry.file)] "a"
    ⟨true, [Comp.normal "ws"]⟩ ["ws", "a"] rfl

/-- C2: any user path containing a parent-directory component is rejected
with the traversal-denied error, for every filesystem state and workspace
root (the check is syntactic and precedes all filesystem lookups). -/
theorem traversal_denied_of_parentDir (fs : FS) (up : String) (root : RPath)
    (h : hasParentDir (parsePath up) = true) :
    resolve_sandbox_path fs up root =
      Except.error SandboxError.traversalDenied ∧
    SandboxError.message SandboxError.traversalDenied =
      "Path traversal denied: .. components are forbidden" := by
  refine ⟨?_, rfl⟩
  unfold resolve_sandbox_path
  simp [h]

/-- Witness for C2: a concrete traversal attempt against an empty
filesystem (neither the target nor the workspace root exists). -/
theorem traversal_denied_of_parentDir_witness :
    resolve_sandbox_path [] "../../../etc/passwd" ⟨true, [Comp.normal "ws"]⟩ =
      Except.error SandboxError.traversalDenied :=
  (traversal_denied_of_parentDir [] "../../../etc/passwd"
    ⟨true, [Comp.normal "ws"]⟩ rfl).1

/-- A concrete workspace root used by the witness scenarios. -/
def rootWS : RPath := ⟨true, [Comp.normal "ws"]⟩

/-- C10: the empty user path is not rejected: it resolves to the canonical
workspace root itself whenever the root canonicalizes, so equality with the
root (not only strict descent) is accepted by the containment check. -/
theorem empty_path_resolves_root (fs : FS) (root : RPath) (cr : List String)
    (hroot : canonicalize fs root = some cr) :
    resolve_sandbox_path fs "" root = Except.ok cr := by
  have hparse : parsePath "" = ⟨false, []⟩ := rfl
  have hcand : candidatePath "" root = root := by
    unfold candidatePath
    rw [hparse]
    simp [RPath.join]
  have hstep := resolve_exists_case fs "" root cr cr (by rw [hparse]; rfl)
    hroot (by rw [hcand]; exact hroot)
  rw [hstep]
  simp [isPrefixOf_self]

/-- Witness for C10: the empty path resolves to the workspace root on a
concrete filesystem. -/
theorem empty_path_resolves_root_witness :
    resolve_sandbox_path [(["ws"], FsEntry.dir)] "" rootWS =
      Except.ok ["ws"] :=
  empty_path_resolves_root [(["ws"], FsEntry.dir)] rootWS ["ws"] rfl

/-- C5: when the candidate's final segment does not exist but its parent
directory canonicalizes inside the workspace (and the input has no
parent-directory component), resolution succeeds with exactly the
canonicalized parent joined with the literal filename. -/
theorem newfile_resolves_parent_join (fs : FS) (up : String)
    (root par : RPath) (fname : String) (cr cp : List String)
    (hnp : hasParentDir (parsePath up) = false)
    (hroot : canonicalize fs root = some cr)
    (hne : pathExists fs (candidatePath up root) = false)
    (hpar : (candidatePath up root).parent = some par)
    (hfn : (candidatePath up root).fileName = some fname)
    (hcp : canonicalize fs par = some cp)
    (hin : cr.isPrefixOf cp = true) :
    resolve_sandbox_path fs up root = Except.ok (cp ++ [fname]) := by
  rw [resolve_newfile_case fs up root par fname cr cp hnp hroot hne hpar
    hfn hcp]
  simp [isPrefixOf_append_right cr cp [fname] hin]

/-- Witness for C5: creating a new file under an existing workspace
subdirectory. -/
theorem newfile_resolves_parent_join_witness :
    resolve_sandbox_path [(["ws"], FsEntry.dir), (["ws", "data"], FsEntry.dir)]
      "data/new.txt" rootWS = Except.ok ["ws", "data", "new.txt"] :=
  newfile_resolves_parent_join
    [(["ws"], FsEntry.dir), (["ws", "data"], FsEntry.dir)] "data/new.txt"
    rootWS ⟨true, [Comp.normal "ws", Comp.normal "data"]⟩ "new.txt"
    ["ws"] ["ws", "data"] rfl rfl rfl rfl rfl rfl rfl

/-- C6: when neither the candidate nor its parent directory canonicalizes,
resolution fails with the parent-resolution rejection (no recursive
multi-level creation-path resolution is attempted). -/
theorem missing_parent_rejected (fs : FS) (up : String) (root par : RPath)
    (fname : String) (cr : List String)
    (hnp : hasParentDir (parsePath up) = false)
    (hroot : canonicalize fs root = some cr)
    (hne : pathExists fs (candidatePath up root) = false)
    (hpar : (candidatePath up root).parent = some par)
    (hfn : (candidatePath up root).fileName = some fname)
    (hcp : canonicalize fs par = none) :
    resolve_sandbox_path fs up root =
      Except.error SandboxError.parentResolutionFailed := by
  unfold resolve_sandbox_path
  simp only [hnp, Bool.false_eq_true, if_false, hroot, canonicalizeCandidate,
    hne, hpar, hfn, hcp]

/-- Witness for C6: a new file under a parent directory that does not
exist. -/
theorem missing_parent_rejected_witness :
    resolve_sandbox_path [(["ws"], FsEntry.dir)] "nope/new.txt" rootWS =
      Except.error SandboxError.parentResolutionFailed :=
  missing_parent_rejected [(["ws"], FsEntry.dir)] "nope/new.txt" rootWS
    ⟨true, [Comp.normal "ws", Comp.normal "nope"]⟩ "new.txt" ["ws"]
    rfl rfl rfl rfl rfl rfl

/-- C8: resolving a path string that is already canonical (canonicalizing
it returns it unchanged) and lies inside the canonical workspace root
returns that same path unchanged, so resolving the output of a successful
resolution returns that output again. -/
theorem resolve_idempotent (fs : FS) (root : RPath) (s : String)
    (q cr : List String)
    (hparse : parsePath s = ⟨true, q.map Comp.normal⟩)
    (hq : canonicalize fs ⟨true, q.map Comp.normal⟩ = some q)
    (hroot : canonicalize fs root = some cr)
    (hin : cr.isPrefixOf q = true) :
    resolve_sandbox_path fs s root = Except.ok q := by
  have hcand : candidatePath s root = ⟨true, q.map Comp.normal⟩ := by
    unfold candidatePath
    rw [hparse]
    simp
  have hnp : hasParentDir (parsePath s) = false := by
    rw [hparse]
    exact hasParentDir_mapNormal true q
  rw [resolve_exists_case fs s root cr q hnp hroot (by rw [hcand]; exact hq)]
  simp [hin]

/-- Witness for C8: a canonical in-workspace path resolves to itself. -/
theorem resolve_idempotent_witness :
    resolve_sandbox_path [(["ws"], FsEntry.dir), (["ws", "a"], FsEntry.file)]
      "/ws/a" rootWS = Except.ok ["ws", "a"] :=
  resolve_idempotent [(["ws"], FsEntry.dir), (["ws", "a"], FsEntry.file)]
    rootWS "/ws/a" ["ws", "a"] ["ws"] rfl rfl rfl rfl

/-- A workspace with a symlink `link` whose target lies outside the
workspace, where the outside directory in turn holds a symlink `back`
leading back inside the workspace to the directory `data`. -/
def fsChain : FS :=
  [(["ws"], FsEntry.dir), (["ws", "data"], FsEntry.dir),
   (["ws", "data", "f"], FsEntry.file),
   (["ws", "link"], FsEntry.symlink ⟨true, [Comp.normal "outside"]⟩),
   (["outside"], FsEntry.dir),
   (["outside", "back"],
    FsEntry.symlink ⟨true, [Comp.normal "ws", Comp.normal "data"]⟩)]

/-- C3 counterexample: ws/link is a symlink located inside the workspace
whose target, outside, lies outside the canonical workspace root, yet
resolving the path link/back/f through it succeeds (with Ok, not the
access-denied rejection), because the full symlink chain canonicalizes back
inside the workspace to ws/data/f. -/
theorem symlink_escape_denied_cex :
    FS.lookup fsChain ["ws", "link"] =
      some (FsEntry.symlink ⟨true, [Comp.normal "outside"]⟩) ∧
    (["ws"].isPrefixOf ["ws", "link"]) = true ∧
    canonicalize fsChain ⟨true, [Comp.normal "ws", Comp.normal "link"]⟩ =
      some ["outside"] ∧
    (["ws"].isPrefixOf ["outside"]) = false ∧
    (parsePath "link/back/f").comps =
      [Comp.normal "link", Comp.normal "back", Comp.normal "f"] ∧
    resolve_sandbox_path fsChain "link/back/f" rootWS =
      Except.ok ["ws", "data", "f"] :=
  ⟨rfl, rfl, rfl, rfl, rfl, rfl⟩

/-- C3 (amended): a symlink located inside the workspace whose target lies
outside the canonical workspace root causes the access-denied rejection
when the symlinked entry (or a path through it, the candidate) is resolved,
whenever the candidate's full canonical form — the entire symlink chain
followed before the containment check — lies outside the canonical
workspace root; a chain that leads back inside the workspace is instead
accepted. -/
theorem symlink_escape_denied (fs : FS) (up : String) (root : RPath)
    (linkPath : List String) (tgt : RPath) (tl cc cr : List String)
    (hnp : hasParentDir (parsePath up) = false)
    (hroot : canonicalize fs root = some cr)
    (_hlink : FS.lookup fs linkPath = some (FsEntry.symlink tgt))
    (_hlinkIn : cr.isPrefixOf linkPath = true)
    (_hlinkTo : canonicalize fs ⟨true, linkPath.map Comp.normal⟩ = some tl)
    (_hlinkOut : cr.isPrefixOf tl = false)
    (hcand : canonicalize fs (candidatePath up root) = some cc)
    (hccOut : cr.isPrefixOf cc = false) :
    resolve_sandbox_path fs up root =
      Except.error (SandboxError.accessDenied up) := by
  rw [resolve_exists_case fs up root cr cc hnp hroot hcand]
  simp [hccOut]

/-- A workspace containing a symlink `escape` to a directory outside it. -/
def fsEscape : FS :=
  [(["ws"], FsEntry.dir), (["outside"], FsEntry.dir),
   (["outside", "secret.txt"], FsEntry.file),
   (["ws", "escape"], FsEntry.symlink ⟨true, [Comp.normal "outside"]⟩)]

/-- Witness for C3 (amended): resolving a file through an escaping symlink
whose chain ends outside the workspace is denied. -/
theorem symlink_escape_denied_witness :
    resolve_sandbox_path fsEscape "escape/secret.txt" rootWS =
      Except.error (SandboxError.accessDenied "escape/secret.txt") :=
  symlink_escape_denied fsEscape "escape/secret.txt" rootWS
    ["ws", "escape"] ⟨true, [Comp.normal "outside"]⟩ ["outside"]
    ["outside", "secret.txt"] ["ws"] rfl rfl rfl rfl rfl rfl rfl rfl

/-- A filesystem with the workspace plus an existing path outside it. -/
def fsOutside : FS :=
  [(["ws"], FsEntry.dir), (["etc"], FsEntry.dir), (["secret"], FsEntry.file)]

/-- C4 counterexample: the absolute input /etc/../secret has a canonical
form (/secret) lying outside the canonical workspace root /ws, yet
resolution fails with the traversal-denied rejection, not access-denied:
the syntactic parent-directory check runs first. -/
theorem absolute_outside_denied_cex :
    (parsePath "/etc/../secret").absolute = true ∧
    canonicalize fsOutside (parsePath "/etc/../secret") = some ["secret"] ∧
    canonicalize fsOutside rootWS = some ["ws"] ∧
    (["ws"].isPrefixOf ["secret"]) = false ∧
    resolve_sandbox_path fsOutside "/etc/../secret" rootWS =
      Except.error SandboxError.traversalDenied ∧
    SandboxError.traversalDenied ≠
      SandboxError.accessDenied "/etc/../secret" :=
  ⟨rfl, rfl, rfl, rfl, rfl, by simp⟩

/-- C4 (amended): for every absolute user path containing no
parent-directory component, whose canonical form lies outside the canonical
workspace root, resolution fails with the access-denied rejection —
containment is decided on component sequences, not raw string prefixes. -/
theorem absolute_outside_denied (fs : FS) (up : String) (root : RPath)
    (c cr : List String)
    (habs : (parsePath up).absolute = true)
    (hnp : hasParentDir (parsePath up) = false)
    (hc : canonicalize fs (parsePath up) = some c)
    (hroot : canonicalize fs root = some cr)
    (hout : cr.isPrefixOf c = false) :
    resolve_sandbox_path fs up root =
      Except.error (SandboxError.accessDenied up) := by
  have hcand : candidatePath up root = parsePath up := by
    unfold candidatePath
    rw [habs]
    simp
  rw [resolve_exists_case fs up root cr c hnp hroot (by rw [hcand]; exact hc)]
  simp [hout]

/-- Witness for C4 (amended): an absolute path to an existing file outside
the workspace is denied even though no traversal segment appears. -/
theorem absolute_outside_denied_witness :
    resolve_sandbox_path fsOutside "/secret" rootWS =
      Except.error (SandboxError.accessDenied "/secret") :=
  absolute_outside_denied fsOutside "/secret" rootWS ["secret"] ["ws"]
    rfl rfl rfl rfl rfl

/-- A workspace with a symlink `link` pointing at its own subdirectory
`data`, which holds the file `f`. -/
def fsInner : FS :=
  [(["ws"], FsEntry.dir), (["ws", "data"], FsEntry.dir),
   (["ws", "data", "f"], FsEntry.file),
   (["ws", "link"],
    FsEntry.symlink ⟨true, [Comp.normal "ws", Comp.normal "data"]⟩)]

/-- C7 counterexample: for the relative input link/f (no `..`), the
canonical result exists within the workspace, yet resolution returns the
canonical form ws/data/f of the candidate — not canonical(workspace_root)
joined with the input, which would be ws/link/f: an in-workspace symlink is
resolved away by canonicalization. -/
theorem relative_equals_root_join_cex :
    (parsePath "link/f").absolute = false ∧
    hasParentDir (parsePath "link/f") = false ∧
    canonicalize fsInner rootWS = some ["ws"] ∧
    canonicalize fsInner (candidatePath "link/f" rootWS) =
      some ["ws", "data", "f"] ∧
    (["ws"].isPrefixOf ["ws", "data", "f"]) = true ∧
    resolve_sandbox_path fsInner "link/f" rootWS =
      Except.ok ["ws", "data", "f"] ∧
    ["ws", "data", "f"] ≠ ["ws"] ++ ["link", "f"] :=
  ⟨rfl, rfl, rfl, rfl, rfl, rfl, by simp⟩

/-- C7 (amended): for every relative user path containing no `..` segment,
when the candidate workspace_root joined with the input canonicalizes to a
path inside the workspace, the resolved path equals that canonical form of
the joined candidate (which coincides with canonical(workspace_root)/input
exactly when the joined path traverses no symlink). -/
theorem relative_resolves_canonical_join (fs : FS) (up : String)
    (root : RPath) (q cr : List String)
    (hrel : (parsePath up).absolute = false)
    (hnp : hasParentDir (parsePath up) = false)
    (hroot : canonicalize fs root = some cr)
    (hq : canonicalize fs (root.join (parsePath up)) = some q)
    (hin : cr.isPrefixOf q = true) :
    resolve_sandbox_path fs up root = Except.ok q := by
  have hcand : candidatePath up root = root.join (parsePath up) := by
    unfold candidatePath
    rw [hrel]
    simp
  rw [resolve_exists_case fs up root cr q hnp hroot (by rw [hcand]; exact hq)]
  simp [hin]

/-- Witness for C7 (amended): a plain relative path to an existing file
resolves to the canonical joined path. -/
theorem relative_resolves_canonical_join_witness :
    resolve_sandbox_path
      [(["ws"], FsEntry.dir), (["ws", "data"], FsEntry.dir),
       (["ws", "data", "f"], FsEntry.file)] "data/f" rootWS =
      Except.ok ["ws", "data", "f"] :=
  relative_resolves_canonical_join
    [(["ws"], FsEntry.dir), (["ws", "data"], FsEntry.dir),
     (["ws", "data", "f"], FsEntry.file)] "data/f" rootWS
    ["ws", "data", "f"] ["ws"] rfl rfl rfl rfl rfl

/-- A workspace containing a dangling symlink `evil` whose stored target
outside/secret does not exist. -/
def fsDangling : FS :=
  [(["ws"], FsEntry.dir),
   (["ws", "evil"],
    FsEntry.symlink ⟨true, [Comp.normal "outside", Comp.normal "secret"]⟩)]

/-- C9: the existence test follows symlinks, so a dangling symlink inside
the workspace whose target path lies outside it is treated as a
non-existent new file: its parent is canonicalized, the literal link name
is re-appended, and resolution succeeds with a path that is itself a
symlink pointing outside the workspace. -/
theorem dangling_symlink_newfile :
    pathExists fsDangling (candidatePath "evil" rootWS) = false ∧
    resolve_sandbox_path fsDangling "evil" rootWS =
      Except.ok ["ws", "evil"] ∧
    FS.lookup fsDangling ["ws", "evil"] =
      some (FsEntry.symlink
        ⟨true, [Comp.normal "outside", Comp.normal "secret"]⟩) ∧
    pathExists fsDangling
      ⟨true, [Comp.normal "outside", Comp.normal "secret"]⟩ = false ∧
    (["ws"].isPrefixOf ["outside", "secret"]) = false :=
  ⟨rfl, rfl, rfl, rfl, rfl⟩

end WorkspaceSandbox
